import Mathlib

/-!
Shallow embedding of the `@gramio/test` in-memory Telegram test harness
(`src/index.ts` and `src/objects/*.ts`), together with theorems checking
the natural-language specification against the code.

Conventions of the embedding:
* TypeScript `Map`s become association lists (`List (k × v)`) with
  `assocLookup` / `assocSet` / `assocDelete` mirroring `get` / `set` /
  `delete`.
* Mutable heap objects (`ChatObject`, `MessageObject`, environment state)
  become explicit state values threaded through the functions.
* `Date.now()` becomes an explicit `now : Nat` parameter.
* `throw new Error(...)` becomes `Except.error`, returned together with
  the untouched state (the source throws before any mutation).
-/

namespace GramioTest

/-- Association-list lookup, mirroring `Map.get` (returns `undefined` as
`none`). -/
def assocLookup {α β : Type} [DecidableEq α] : List (α × β) → α → Option β
  | [], _ => none
  | (k, v) :: rest, key => if k = key then some v else assocLookup rest key

/-- Association-list update, mirroring `Map.set` (replaces the binding for
the key, or appends a new one). -/
def assocSet {α β : Type} [DecidableEq α] : List (α × β) → α → β → List (α × β)
  | [], key, val => [(key, val)]
  | (k, v) :: rest, key, val =>
    if k = key then (key, val) :: rest else (k, v) :: assocSet rest key val

/-- Association-list removal, mirroring `Map.delete`. -/
def assocDelete {α β : Type} [DecidableEq α] : List (α × β) → α → List (α × β)
  | [], _ => []
  | (k, v) :: rest, key =>
    if k = key then assocDelete rest key else (k, v) :: assocDelete rest key

/-! ## Outbound-call interceptor (`src/index.ts`) -/

/-- `TelegramResponseParameters` from `@gramio/types`: the auxiliary
parameter bag a platform error may carry. -/
structure RespParams where
  migrate_to_chat_id : Option Int := none
  retry_after : Option Int := none
  deriving DecidableEq, Repr

/-- The empty parameter bag `{}`. -/
def emptyRespParams : RespParams := {}

/-- The `TelegramError` marker value as observed by `src/index.ts`: the
interceptor reads `.code`, `.message` (the description) and `.payload`
(the parameters, possibly absent). -/
structure TgError where
  code : Int
  description : String
  parameters : Option RespParams
  deriving DecidableEq, Repr

/-- `apiError(code, description, parameters?)` from `src/index.ts`
lines 34-49: builds a `TelegramError` whose payload is
`parameters ?? {}`. -/
def apiError (code : Int) (description : String)
    (parameters : Option RespParams := none) : TgError :=
  { code := code
    description := description
    parameters := some (parameters.getD emptyRespParams) }

/-- The parameter bag of an outbound call, restricted to the fields the
harness itself reads (`params.chat_id`, `params.text` in
`mockApiResponse`). -/
structure Params where
  chat_id : Option Int := none
  text : Option String := none
  deriving DecidableEq, Repr

/-- A value produced for an outbound call: the built-in responder's
`true` / synthesized message, an error marker, or an arbitrary
override-supplied value (`otherVal`). -/
inductive ApiResponse where
  | boolVal (b : Bool)
  | messageVal (message_id : Nat) (date : Nat) (chat_id : Option Int)
      (chat_type : String) (text : Option String)
  | errVal (e : TgError)
  | otherVal (tag : Nat)
  deriving DecidableEq, Repr

/-- One record of the environment's call log (`ApiCall` in
`src/index.ts`). -/
structure ApiCallRec where
  method : String
  params : Params
  response : ApiResponse
  deriving DecidableEq, Repr

/-- The interceptor-relevant state of `TelegramTestEnvironment`:
the call log, the override table and the mock message counter. -/
structure Env where
  apiCalls : List ApiCallRec := []
  apiHandlers : List (String × (Params → ApiResponse)) := []
  lastMockMessageId : Nat := 0

/-- How an intercepted call resolves: `Promise.resolve(response)` or
`Promise.reject(new TelegramError(..., method, params))` with the
rebuilt code, description and `payload ?? {}`. -/
inductive Outcome where
  | resolved (v : ApiResponse)
  | rejected (code : Int) (description : String) (parameters : RespParams)
      (method : String) (params : Params)
  deriving DecidableEq, Repr

/-- `mockApiResponse` from `src/index.ts` lines 121-135: `sendMessage`
gets a synthesized message with `++lastMockMessageId`, the current date,
a private chat built from `params.chat_id` and `params.text`; every
other method gets the literal `true`. -/
def mockApiResponse (env : Env) (method : String) (params : Params)
    (now : Nat) : ApiResponse × Env :=
  if method = "sendMessage" then
    (ApiResponse.messageVal (env.lastMockMessageId + 1) now params.chat_id
      "private" params.text,
     { env with lastMockMessageId := env.lastMockMessageId + 1 })
  else
    (ApiResponse.boolVal true, env)

/-- The response production step of the proxy in `interceptApi`
(`src/index.ts` lines 85-89): consult the override table, else fall back
to the default responder. -/
def produceResponse (env : Env) (method : String) (params : Params)
    (now : Nat) : ApiResponse × Env :=
  match assocLookup env.apiHandlers method with
  | some handler => (handler params, env)
  | none => mockApiResponse env method params now

/-- One intercepted outbound call (`src/index.ts` lines 85-109): produce
the response, push `{method, params, response}` onto the call log, then
resolve or reject depending on whether the response is a
`TelegramError`. -/
def interceptCall (env : Env) (method : String) (params : Params)
    (now : Nat) : Outcome × Env :=
  let (response, env1) := produceResponse env method params now
  let env2 := { env1 with
    apiCalls := env1.apiCalls ++ [⟨method, params, response⟩] }
  match response with
  | ApiResponse.errVal e =>
    (Outcome.rejected e.code e.description (e.parameters.getD emptyRespParams)
      method params, env2)
  | v => (Outcome.resolved v, env2)

/-- `onApi(method, handler)` with a function handler (`src/index.ts`
lines 137-154). -/
def onApi (env : Env) (method : String)
    (handler : Params → ApiResponse) : Env :=
  { env with apiHandlers := assocSet env.apiHandlers method handler }

/-- `onApi(method, value)` with a static value: the source wraps it as
`() => handler`. -/
def onApiValue (env : Env) (method : String) (value : ApiResponse) : Env :=
  onApi env method (fun _ => value)

/-- `offApi(method)` for a specific method (`src/index.ts`
lines 156-162). -/
def offApiMethod (env : Env) (method : String) : Env :=
  { env with apiHandlers := assocDelete env.apiHandlers method }

/-- `offApi()` with no method: clears the whole override table. -/
def offApiAll (env : Env) : Env :=
  { env with apiHandlers := [] }

/-! ## Entity model (`src/objects/*.ts`) -/

/-- A reaction type from `@gramio/types`: the harness builds `emoji`
entries, other kinds (custom emoji, ...) exist in the wire type. -/
inductive RType where
  | emoji (e : String)
  | custom (id : String)
  deriving DecidableEq, Repr

/-- The message record (`MessageObject.payload` plus the per-message
reaction ledger `MessageObject.reactions`, a map from user id to the
user's current emoji list). -/
structure Msg where
  message_id : Nat := 0
  date : Nat := 0
  chat_id : Option Int := none
  from_id : Option Nat := none
  text : Option String := none
  new_chat_members : List Nat := []
  left_chat_member : Option Nat := none
  reactions : List (Nat × List String) := []
  deriving DecidableEq, Repr

/-- `ChatObject` state: payload identity plus the in-memory
`members : Set<UserObject>` (modelled by user ids) and
`messages : MessageObject[]`. -/
structure ChatS where
  id : Int
  ctype : String := "private"
  members : List Nat := []
  messages : List Msg := []
  deriving DecidableEq, Repr

/-- `Set.add` on the member set: no-op when already present. -/
def memberAdd (members : List Nat) (uid : Nat) : List Nat :=
  if uid ∈ members then members else members ++ [uid]

/-- `Set.delete` on the member set. -/
def memberDelete (members : List Nat) (uid : Nat) : List Nat :=
  members.filter (fun m => m ≠ uid)

/-- `UserObject` state: payload identity, the optional environment link
(actions check it first), and the owned private chat `asChat`. -/
structure UserS where
  id : Nat
  firstName : String := ""
  isBot : Bool := false
  linked : Bool := false
  asChat : ChatS
  deriving DecidableEq, Repr

/-- The updates the user actions emit through
`environment.emitUpdate(...)` (each carries exactly one payload kind). -/
inductive Upd where
  | message (m : Msg)
  | chatMember (chatId : Int) (fromId : Nat) (date : Nat)
      (oldStatus : String) (newStatus : String)
  | callbackQuery (fromId : Nat) (data : String) (chatInstance : String)
      (msgId : Option Nat)
  | messageReaction (chatId : Int) (messageId : Nat) (userId : Nat)
      (date : Nat) (oldReaction : List RType) (newReaction : List RType)
  | inlineQuery (fromId : Nat) (query : String) (offset : String)
      (chatType : Option String)
  | chosenInlineResult (fromId : Nat) (resultId : String) (query : String)
      (inlineMessageId : Option String)
  deriving DecidableEq, Repr

/-- An emitted update together with the global update id the environment
stamped on it. -/
abbrev Emitted := Nat × Upd

/-- The module-level counters (`lastUserId`, `lastChatId`, ...,
`lastUpdateId`, and the per-chat `lastMessageIdPerChat` map). -/
structure Counters where
  lastUserId : Nat := 0
  lastChatId : Nat := 0
  lastCallbackQueryId : Nat := 0
  lastInlineQueryId : Nat := 0
  lastUpdateId : Nat := 0
  lastMessageIdPerChat : List (Int × Nat) := []
  deriving DecidableEq, Repr

/-- `TelegramTestEnvironment.emitUpdate`: stamps `lastUpdateId++` on the
update and forwards it to the external dispatcher (recorded here as the
emitted pair). -/
def emitUpdate (cnt : Counters) (u : Upd) : Counters × Emitted :=
  ({ cnt with lastUpdateId := cnt.lastUpdateId + 1 }, (cnt.lastUpdateId, u))

/-- The error message every unlinked action throws. -/
def notAttachedMsg : String :=
  "UserObject is not attached to a TelegramTestEnvironment. Use env.createUser() to create users."

/-! ## User actions (`src/objects/user.ts`) -/

/-- The `chatOrText` union of `sendMessage`'s first argument. -/
inductive ChatOrText where
  | chatArg (chat : ChatS) (text : String)
  | textArg (text : String)
  deriving Repr

/-- Output of `sendMessage`: the resulting message (or the not-attached
error), the target chat's new state, the counters and the emitted
updates, in emission order. -/
structure SendOut where
  result : Except String Msg
  chat : ChatS
  counters : Counters
  emitted : List Emitted
  deriving Repr

/-- `UserObject.sendMessage` (`src/objects/user.ts` lines 36-79): guard
the environment link, resolve the chat (explicit chat or `asChat`),
allocate the chat's next message id, build and append the message, emit
a `message` update, return the message. -/
def sendMessage (u : UserS) (arg : ChatOrText) (now : Nat)
    (cnt : Counters) : SendOut :=
  if u.linked = false then
    { result := Except.error notAttachedMsg
      chat := match arg with
        | ChatOrText.chatArg c _ => c
        | ChatOrText.textArg _ => u.asChat
      counters := cnt
      emitted := [] }
  else
    let (chat, messageText) := match arg with
      | ChatOrText.chatArg c t => (c, t)
      | ChatOrText.textArg t => (u.asChat, t)
    let chatId := chat.id
    let nextMsgId := (assocLookup cnt.lastMessageIdPerChat chatId).getD 0 + 1
    let cnt1 := { cnt with
      lastMessageIdPerChat := assocSet cnt.lastMessageIdPerChat chatId nextMsgId }
    let message : Msg :=
      { message_id := nextMsgId
        text := some messageText
        date := now
        chat_id := some chat.id
        from_id := some u.id }
    let chat1 := { chat with messages := chat.messages ++ [message] }
    let (cnt2, e) := emitUpdate cnt1 (Upd.message message)
    { result := Except.ok message
      chat := chat1
      counters := cnt2
      emitted := [e] }

/-- Output of `join` / `leave`. -/
structure MemberOut where
  result : Except String Unit
  chat : ChatS
  counters : Counters
  emitted : List Emitted
  deriving Repr

/-- First phase of `join` (`src/objects/user.ts` lines 88-105): add the
user to the member set and emit the `chat_member` transition
`"left" → "member"`. -/
def joinMembershipPhase (u : UserS) (chat : ChatS) (now : Nat)
    (cnt : Counters) : MemberOut :=
  let chat1 := { chat with members := memberAdd chat.members u.id }
  let (cnt1, e) := emitUpdate cnt
    (Upd.chatMember chat.id u.id now "left" "member")
  { result := Except.ok ()
    chat := chat1
    counters := cnt1
    emitted := [e] }

/-- Second phase of `join` (`src/objects/user.ts` lines 107-126):
allocate the chat's next message id, append the new-members service
message, emit it. -/
def joinServicePhase (u : UserS) (now : Nat) (st : MemberOut) : MemberOut :=
  let chat := st.chat
  let cnt := st.counters
  let chatId := chat.id
  let nextMsgId := (assocLookup cnt.lastMessageIdPerChat chatId).getD 0 + 1
  let cnt1 := { cnt with
    lastMessageIdPerChat := assocSet cnt.lastMessageIdPerChat chatId nextMsgId }
  let serviceMessage : Msg :=
    { message_id := nextMsgId
      date := now
      chat_id := some chat.id
      from_id := some u.id
      new_chat_members := [u.id] }
  let chat1 := { chat with messages := chat.messages ++ [serviceMessage] }
  let (cnt2, e) := emitUpdate cnt1 (Upd.message serviceMessage)
  { result := st.result
    chat := chat1
    counters := cnt2
    emitted := st.emitted ++ [e] }

/-- `UserObject.join` (`src/objects/user.ts` lines 81-127): guard, then
membership phase, then service-message phase. -/
def join (u : UserS) (chat : ChatS) (now : Nat) (cnt : Counters) :
    MemberOut :=
  if u.linked = false then
    { result := Except.error notAttachedMsg
      chat := chat
      counters := cnt
      emitted := [] }
  else
    joinServicePhase u now (joinMembershipPhase u chat now cnt)

/-- First phase of `leave` (`src/objects/user.ts` lines 136-153): remove
the user from the member set and emit the `chat_member` transition
`"member" → "left"`. -/
def leaveMembershipPhase (u : UserS) (chat : ChatS) (now : Nat)
    (cnt : Counters) : MemberOut :=
  let chat1 := { chat with members := memberDelete chat.members u.id }
  let (cnt1, e) := emitUpdate cnt
    (Upd.chatMember chat.id u.id now "member" "left")
  { result := Except.ok ()
    chat := chat1
    counters := cnt1
    emitted := [e] }

/-- Second phase of `leave` (`src/objects/user.ts` lines 155-174):
allocate the next message id, append the left-member service message,
emit it. -/
def leaveServicePhase (u : UserS) (now : Nat) (st : MemberOut) : MemberOut :=
  let chat := st.chat
  let cnt := st.counters
  let chatId := chat.id
  let nextMsgId := (assocLookup cnt.lastMessageIdPerChat chatId).getD 0 + 1
  let cnt1 := { cnt with
    lastMessageIdPerChat := assocSet cnt.lastMessageIdPerChat chatId nextMsgId }
  let serviceMessage : Msg :=
    { message_id := nextMsgId
      date := now
      chat_id := some chat.id
      from_id := some u.id
      left_chat_member := some u.id }
  let chat1 := { chat with messages := chat.messages ++ [serviceMessage] }
  let (cnt2, e) := emitUpdate cnt1 (Upd.message serviceMessage)
  { result := st.result
    chat := chat1
    counters := cnt2
    emitted := st.emitted ++ [e] }

/-- `UserObject.leave` (`src/objects/user.ts` lines 129-175). -/
def leave (u : UserS) (chat : ChatS) (now : Nat) (cnt : Counters) :
    MemberOut :=
  if u.linked = false then
    { result := Except.error notAttachedMsg
      chat := chat
      counters := cnt
      emitted := [] }
  else
    leaveServicePhase u now (leaveMembershipPhase u chat now cnt)

/-- The callback query record built by `click`. -/
structure CbQ where
  id : Nat
  fromId : Nat
  data : String
  chatInstance : String
  msgId : Option Nat
  deriving DecidableEq, Repr

/-- Output of `click`. -/
structure ClickOut where
  result : Except String CbQ
  counters : Counters
  emitted : List Emitted
  deriving Repr

/-- `UserObject.click` (`src/objects/user.ts` lines 177-203): guard,
build a `CallbackQueryObject` (allocating `++lastCallbackQueryId`, with
`chat_instance = String(Date.now())`), optionally attach the message,
emit a `callback_query` update, return the query. -/
def click (u : UserS) (callbackData : String) (message : Option Msg)
    (now : Nat) (cnt : Counters) : ClickOut :=
  if u.linked = false then
    { result := Except.error notAttachedMsg
      counters := cnt
      emitted := [] }
  else
    let qid := cnt.lastCallbackQueryId + 1
    let cnt1 := { cnt with lastCallbackQueryId := qid }
    let cbQuery : CbQ :=
      { id := qid
        fromId := u.id
        data := callbackData
        chatInstance := toString now
        msgId := message.map (fun m => m.message_id) }
    let (cnt2, e) := emitUpdate cnt1
      (Upd.callbackQuery u.id callbackData (toString now)
        (message.map (fun m => m.message_id)))
    { result := Except.ok cbQuery
      counters := cnt2
      emitted := [e] }

/-- The `.filter(...type === "emoji").map(...emoji)` projection used by
`react`'s persistence step. -/
def emojisOf (l : List RType) : List String :=
  l.filterMap (fun r => match r with
    | RType.emoji em => some em
    | _ => none)

/-- Output of `react`: the tracked message's new state (when a message
was supplied) rides along. -/
structure ReactOut where
  result : Except String Unit
  message : Option Msg
  counters : Counters
  emitted : List Emitted
  deriving Repr

/-- `UserObject.react`, simple emoji-list form (the `else` branch of
`src/objects/user.ts` lines 235-247 plus the persistence step of
lines 249-264): the previous ledger entry becomes `old_reaction`, the
given emojis become `new_reaction`; after the reaction update is
emitted the ledger entry is replaced wholesale, or deleted when the new
emoji set is empty. -/
def react (u : UserS) (emojis : List String) (message : Option Msg)
    (now : Nat) (cnt : Counters) : ReactOut :=
  if u.linked = false then
    { result := Except.error notAttachedMsg
      message := message
      counters := cnt
      emitted := [] }
  else
    let prevEmojis := match message with
      | some m => (assocLookup m.reactions u.id).getD []
      | none => []
    let chatId := (message.bind (fun m => m.chat_id)).getD u.asChat.id
    let messageId := (message.map (fun m => m.message_id)).getD 0
    let oldReaction := prevEmojis.map RType.emoji
    let newReaction := emojis.map RType.emoji
    let (cnt1, e) := emitUpdate cnt
      (Upd.messageReaction chatId messageId u.id now oldReaction newReaction)
    let newEmojis := emojisOf newReaction
    let message1 := message.map (fun m =>
      if newEmojis = [] then
        { m with reactions := assocDelete m.reactions u.id }
      else
        { m with reactions := assocSet m.reactions u.id newEmojis })
    { result := Except.ok ()
      message := message1
      counters := cnt1
      emitted := [e] }

/-- The inline query record built by `sendInlineQuery`. -/
structure InlineQ where
  id : Nat
  fromId : Nat
  query : String
  offset : String
  chatType : Option String
  deriving DecidableEq, Repr

/-- Output of `sendInlineQuery`. -/
structure InlineOut where
  result : Except String InlineQ
  counters : Counters
  emitted : List Emitted
  deriving Repr

/-- The `chatOrOptions` union of `sendInlineQuery`'s second argument. -/
inductive InlineArg where
  | chatArg (chat : ChatS) (optionsOffset : Option String)
  | optsArg (offset : Option String) (chatType : Option String)
  | noneArg
  deriving Repr

/-- `UserObject.sendInlineQuery` (`src/objects/user.ts` lines 267-302):
guard, resolve `chat_type`/`offset` from the union argument, build an
`InlineQueryObject` (allocating `++lastInlineQueryId`), emit an
`inline_query` update, return the query. -/
def sendInlineQuery (u : UserS) (query : String) (arg : InlineArg)
    (cnt : Counters) : InlineOut :=
  if u.linked = false then
    { result := Except.error notAttachedMsg
      counters := cnt
      emitted := [] }
  else
    let (chatType, offset) := match arg with
      | InlineArg.chatArg chat optionsOffset =>
        (some chat.ctype, optionsOffset.getD "")
      | InlineArg.optsArg off ct => (ct, off.getD "")
      | InlineArg.noneArg => (none, "")
    let qid := cnt.lastInlineQueryId + 1
    let cnt1 := { cnt with lastInlineQueryId := qid }
    let inlineQuery : InlineQ :=
      { id := qid
        fromId := u.id
        query := query
        offset := offset
        chatType := chatType }
    let (cnt2, e) := emitUpdate cnt1
      (Upd.inlineQuery u.id query offset chatType)
    { result := Except.ok inlineQuery
      counters := cnt2
      emitted := [e] }

/-- The chosen-inline-result record built by `chooseInlineResult`. -/
structure ChosenR where
  fromId : Nat
  resultId : String
  query : String
  inlineMessageId : Option String
  deriving DecidableEq, Repr

/-- Output of `chooseInlineResult`. -/
structure ChosenOut where
  result : Except String ChosenR
  counters : Counters
  emitted : List Emitted
  deriving Repr

/-- `UserObject.chooseInlineResult` (`src/objects/user.ts`
lines 314-338): guard, build a `ChosenInlineResultObject`, emit a
`chosen_inline_result` update, return it. -/
def chooseInlineResult (u : UserS) (resultId : String) (query : String)
    (inlineMessageId : Option String) (cnt : Counters) : ChosenOut :=
  if u.linked = false then
    { result := Except.error notAttachedMsg
      counters := cnt
      emitted := [] }
  else
    let res : ChosenR :=
      { fromId := u.id
        resultId := resultId
        query := query
        inlineMessageId := inlineMessageId }
    let (cnt1, e) := emitUpdate cnt
      (Upd.chosenInlineResult u.id resultId query inlineMessageId)
    { result := Except.ok res
      counters := cnt1
      emitted := [e] }

/-! ## Constructors (`src/objects/message.ts`, `src/objects/user.ts`,
`src/index.ts`) -/

/-- The optional partial payload the `MessageObject` constructor
accepts. -/
structure PartialMsg where
  message_id : Option Nat := none
  date : Option Nat := none
  chat_id : Option Int := none
  from_id : Option Nat := none
  text : Option String := none
  deriving DecidableEq, Repr

/-- The `MessageObject` constructor (`src/objects/message.ts`
lines 12-18): defaults `message_id` to
`lastMessageIdPerChat.get(payload.chat?.id ?? 0) ?? 0` and `date` to
`Date.now()`, then the partial payload's own fields win. -/
def messageObjectNew (payload : PartialMsg)
    (lastMessageIdPerChat : List (Int × Nat)) (now : Nat) : Msg :=
  { message_id := payload.message_id.getD
      ((assocLookup lastMessageIdPerChat (payload.chat_id.getD 0)).getD 0)
    date := payload.date.getD now
    chat_id := payload.chat_id
    from_id := payload.from_id
    text := payload.text }

/-- The message id `sendMessage` (and `join`/`leave`) would allocate
next for a chat: the stored last-used value plus one
(`src/objects/user.ts` line 58). -/
def nextSeqId (lastMessageIdPerChat : List (Int × Nat)) (chatId : Int) :
    Nat :=
  (assocLookup lastMessageIdPerChat chatId).getD 0 + 1

/-- The optional partial payload the `UserObject` constructor accepts. -/
structure PartialUser where
  id : Option Nat := none
  first_name : Option String := none
  is_bot : Option Bool := none
  deriving Repr

/-- The `UserObject` constructor (`src/objects/user.ts` lines 21-34):
allocates `++lastUserId`, defaults the payload from it, spreads the
partial payload over the defaults (so a supplied `id` overrides the
allocated one), then builds the owned private `asChat` (whose
`ChatObject` constructor still bumps `lastChatId` even though its `id`
is overridden). -/
def userObjectNew (payload : PartialUser) (cnt : Counters) :
    UserS × Counters :=
  let allocatedId := cnt.lastUserId + 1
  let finalId := payload.id.getD allocatedId
  ({ id := finalId
     firstName := payload.first_name.getD ("User " ++ toString allocatedId)
     isBot := payload.is_bot.getD false
     linked := false
     asChat := { id := Int.ofNat finalId, ctype := "private" } },
   { cnt with
     lastUserId := allocatedId
     lastChatId := cnt.lastChatId + 1 })

/-- The union argument of `createUser`. -/
inductive CreateUserArg where
  | partialArg (p : PartialUser)
  | existingArg (u : UserS)
  deriving Repr

/-- `TelegramTestEnvironment.createUser` (`src/index.ts` lines 177-188):
an existing `UserObject` is linked and registered as-is; a partial
payload goes through the `UserObject` constructor, then the new user is
linked and registered. -/
def createUser (arg : CreateUserArg) (cnt : Counters)
    (users : List UserS) : UserS × Counters × List UserS :=
  match arg with
  | CreateUserArg.existingArg u =>
    let u1 := { u with linked := true }
    (u1, cnt, users ++ [u1])
  | CreateUserArg.partialArg p =>
    let (u, cnt1) := userObjectNew p cnt
    let u1 := { u with linked := true }
    (u1, cnt1, users ++ [u1])

/-! ## Run helpers for sequence properties -/

/-- The stored last-used message id of a chat (`0` when the chat has no
entry yet). -/
def entryVal (lastMessageIdPerChat : List (Int × Nat)) (chatId : Int) :
    Nat :=
  (assocLookup lastMessageIdPerChat chatId).getD 0

/-- Run a sequence of `sendMessage` calls (one per listed chat),
collecting `(chat id, assigned message id)` pairs; stops if a call
fails. -/
def runSendPairs (u : UserS) (now : Nat) :
    List ChatS → Counters → List (Int × Nat)
  | [], _ => []
  | chat :: rest, cnt =>
    let out := sendMessage u (ChatOrText.chatArg chat "text") now cnt
    match out.result with
    | Except.ok m => (chat.id, m.message_id) :: runSendPairs u now rest out.counters
    | Except.error _ => []

/-- The message ids assigned to one particular chat during a run, in
order. -/
def idsForChat (chatId : Int) (pairs : List (Int × Nat)) : List Nat :=
  (pairs.filter (fun p => p.1 = chatId)).map (fun p => p.2)

/-- Run a sequence of `createUser` calls with partial payloads,
collecting the returned users' ids in call order. -/
def createdIds : List PartialUser → Counters → List Nat
  | [], _ => []
  | p :: rest, cnt =>
    let r := createUser (CreateUserArg.partialArg p) cnt []
    r.1.id :: createdIds rest r.2.1

/-! ## Sample values used by witness theorems -/

/-- A user linked to an environment (as `env.createUser()` leaves it). -/
def sampleLinkedUser : UserS :=
  { id := 1, firstName := "User 1", isBot := false, linked := true
    asChat := { id := 1 } }

/-- A user never registered with an environment. -/
def sampleUnlinkedUser : UserS :=
  { id := 2, firstName := "User 2", isBot := false, linked := false
    asChat := { id := 2 } }

/-- A sample message living in chat 5. -/
def sampleMsg : Msg := { message_id := 1, chat_id := some 5 }

/-- A sample group chat. -/
def chatA : ChatS := { id := 10, ctype := "group" }

/-- A second, distinct sample group chat. -/
def chatB : ChatS := { id := 11, ctype := "group" }

/-! ## Association-list lemmas -/

theorem assocLookup_assocSet_self {α β : Type} [DecidableEq α]
    (l : List (α × β)) (key : α) (val : β) :
    assocLookup (assocSet l key val) key = some val := by
  induction l with
  | nil => simp [assocSet, assocLookup]
  | cons hd tl ih =>
    obtain ⟨k, v⟩ := hd
    by_cases h : k = key
    · simp [assocSet, assocLookup, h]
    · simp [assocSet, assocLookup, h, ih]

theorem assocLookup_assocSet_ne {α β : Type} [DecidableEq α]
    (l : List (α × β)) (key key' : α) (val : β) (h : key ≠ key') :
    assocLookup (assocSet l key val) key' = assocLookup l key' := by
  induction l with
  | nil => simp [assocSet, assocLookup, h]
  | cons hd tl ih =>
    obtain ⟨k, v⟩ := hd
    by_cases hk : k = key
    · subst hk
      simp [assocSet, assocLookup, h]
    · simp [assocSet, assocLookup, hk, ih]

theorem assocLookup_assocDelete_self {α β : Type} [DecidableEq α]
    (l : List (α × β)) (key : α) :
    assocLookup (assocDelete l key) key = none := by
  induction l with
  | nil => simp [assocDelete, assocLookup]
  | cons hd tl ih =>
    obtain ⟨k, v⟩ := hd
    by_cases h : k = key
    · simp [assocDelete, h, ih]
    · simp [assocDelete, assocLookup, h, ih]

/-! ## Interceptor lemmas and claims C1, C2, C10 -/

theorem produceResponse_apiCalls (env : Env) (method : String)
    (params : Params) (now : Nat) :
    (produceResponse env method params now).2.apiCalls = env.apiCalls := by
  unfold produceResponse mockApiResponse
  cases assocLookup env.apiHandlers method with
  | none => by_cases h : method = "sendMessage" <;> simp [h]
  | some handler => simp

theorem interceptCall_apiCalls (env : Env) (method : String)
    (params : Params) (now : Nat) :
    (interceptCall env method params now).2.apiCalls =
      env.apiCalls ++
        [⟨method, params, (produceResponse env method params now).1⟩] := by
  unfold interceptCall
  have h := produceResponse_apiCalls env method params now
  cases hr : (produceResponse env method params now) with
  | mk response env1 =>
    rw [hr] at h
    cases response <;> simp_all

/-- C1 — A platform-error marker built by `apiError` and produced by an
override (installed via `onApi` as a static value, or returned by a
dynamic handler) makes the intercepted call resolve as a rejected
outcome carrying exactly the supplied code, description and auxiliary
parameters; any non-marker value makes it resolve as a successful
outcome carrying that value. -/
theorem apiError_override_rejects_exactly (env : Env) (method : String)
    (params : Params) (now : Nat) :
    (∀ (code : Int) (description : String) (p : RespParams),
      (interceptCall
          (onApiValue env method
            (ApiResponse.errVal (apiError code description (some p))))
          method params now).1 =
        Outcome.rejected code description p method params) ∧
    (∀ (handler : Params → ApiResponse) (code : Int) (description : String)
        (p : RespParams),
      assocLookup env.apiHandlers method = some handler →
      handler params = ApiResponse.errVal (apiError code description (some p)) →
      (interceptCall env method params now).1 =
        Outcome.rejected code description p method params) ∧
    (∀ (handler : Params → ApiResponse) (v : ApiResponse),
      assocLookup env.apiHandlers method = some handler →
      handler params = v →
      (∀ e, v ≠ ApiResponse.errVal e) →
      (interceptCall env method params now).1 = Outcome.resolved v) := by
  refine ⟨?_, ?_, ?_⟩
  · intro code description p
    unfold interceptCall produceResponse onApiValue onApi
    simp [assocLookup_assocSet_self, apiError, emptyRespParams]
  · intro handler code description p hlook hval
    unfold interceptCall produceResponse
    simp [hlook, hval, apiError, emptyRespParams]
  · intro handler v hlook hval hne
    unfold interceptCall produceResponse
    cases v with
    | errVal e => exact absurd rfl (hne e)
    | boolVal b => simp [hlook, hval]
    | messageVal a b c d e => simp [hlook, hval]
    | otherVal t => simp [hlook, hval]

/-- Witness for C1 at a concrete environment: a static `apiError(429,
"Too Many Requests", {retry_after: 3})` override on `sendMessage` makes
the next `sendMessage` call reject with exactly that code, description
and parameter bag, and a handler returning plain `true` resolves
successfully. -/
theorem apiError_override_rejects_exactly_witness :
    (interceptCall
        (onApiValue {} "sendMessage"
          (ApiResponse.errVal (apiError 429 "Too Many Requests"
            (some { retry_after := some 3 }))))
        "sendMessage" {} 0).1 =
      Outcome.rejected 429 "Too Many Requests" { retry_after := some 3 }
        "sendMessage" {} ∧
    (interceptCall
        { apiHandlers := [("getMe", fun _ => ApiResponse.boolVal true)] }
        "getMe" {} 0).1 =
      Outcome.resolved (ApiResponse.boolVal true) :=
  ⟨(apiError_override_rejects_exactly {} "sendMessage" {} 0).1 429
      "Too Many Requests" { retry_after := some 3 },
   (apiError_override_rejects_exactly
      { apiHandlers := [("getMe", fun _ => ApiResponse.boolVal true)] }
      "getMe" {} 0).2.2 (fun _ => ApiResponse.boolVal true)
      (ApiResponse.boolVal true) rfl rfl
      (fun _ h => ApiResponse.noConfusion h)⟩

/-- C2 — Every intercepted call appends exactly one `{method, params,
response}` record to the call log (so the old log is a prefix: the log
is append-only), and the override-management operations never touch the
log. -/
theorem apiCalls_append_only (env : Env) (method : String) (params : Params)
    (now : Nat) (handler : Params → ApiResponse) (value : ApiResponse) :
    (interceptCall env method params now).2.apiCalls =
      env.apiCalls ++
        [⟨method, params, (produceResponse env method params now).1⟩] ∧
    env.apiCalls <+: (interceptCall env method params now).2.apiCalls ∧
    (onApi env method handler).apiCalls = env.apiCalls ∧
    (onApiValue env method value).apiCalls = env.apiCalls ∧
    (offApiMethod env method).apiCalls = env.apiCalls ∧
    (offApiAll env).apiCalls = env.apiCalls := by
  refine ⟨interceptCall_apiCalls env method params now, ?_, rfl, rfl, rfl, rfl⟩
  rw [interceptCall_apiCalls env method params now]
  exact List.prefix_append _ _

/-- C10 — Absent an override, the default responder answers every
method other than `"sendMessage"` with the literal `true`;
`"sendMessage"` gets a synthesized message with the next response-local
message id, the caller's `chat_id` under type `"private"`, and the
caller's `text`; hence every non-overridden non-`sendMessage` call
resolves successfully with `true`. -/
theorem mockApiResponse_default (env : Env) (method : String)
    (params : Params) (now : Nat) :
    (method ≠ "sendMessage" →
      mockApiResponse env method params now = (ApiResponse.boolVal true, env)) ∧
    mockApiResponse env "sendMessage" params now =
      (ApiResponse.messageVal (env.lastMockMessageId + 1) now params.chat_id
        "private" params.text,
       { env with lastMockMessageId := env.lastMockMessageId + 1 }) ∧
    (assocLookup env.apiHandlers method = none → method ≠ "sendMessage" →
      (interceptCall env method params now).1 =
        Outcome.resolved (ApiResponse.boolVal true)) := by
  refine ⟨?_, ?_, ?_⟩
  · intro h
    simp [mockApiResponse, h]
  · simp [mockApiResponse]
  · intro hlook h
    unfold interceptCall produceResponse
    simp [hlook, mockApiResponse, h]

/-- Witness for C10: with no override installed, a `"getMe"` call
resolves with `true`. -/
theorem mockApiResponse_default_witness :
    (interceptCall ({} : Env) "getMe" {} 7).1 =
      Outcome.resolved (ApiResponse.boolVal true) :=
  (mockApiResponse_default {} "getMe" {} 7).2.2 rfl (by decide)

/-! ## Per-chat message-id sequencing (claim C3) -/

theorem runSendPairs_cons (u : UserS) (hl : u.linked = true) (now : Nat)
    (chat : ChatS) (rest : List ChatS) (cnt : Counters) :
    runSendPairs u now (chat :: rest) cnt =
      (chat.id, entryVal cnt.lastMessageIdPerChat chat.id + 1) ::
        runSendPairs u now rest
          { cnt with
            lastMessageIdPerChat := assocSet cnt.lastMessageIdPerChat chat.id
              (entryVal cnt.lastMessageIdPerChat chat.id + 1)
            lastUpdateId := cnt.lastUpdateId + 1 } := by
  simp [runSendPairs, sendMessage, hl, emitUpdate, entryVal]

theorem entryVal_assocSet_le (map : List (Int × Nat)) (c x : Int) :
    entryVal map x ≤ entryVal (assocSet map c (entryVal map c + 1)) x := by
  by_cases h : c = x
  · subst h
    simp only [entryVal, assocLookup_assocSet_self, Option.getD_some]
    exact Nat.le_succ _
  · simp only [entryVal, assocLookup_assocSet_ne _ _ _ _ h, le_refl]

theorem entryVal_assocSet_self (map : List (Int × Nat)) (c : Int)
    (v : Nat) : entryVal (assocSet map c v) c = v := by
  rw [entryVal, assocLookup_assocSet_self]
  rfl

theorem runSendPairs_mem_gt (u : UserS) (hl : u.linked = true) (now : Nat) :
    ∀ (cs : List ChatS) (cnt : Counters) (x : Int) (idv : Nat),
      (x, idv) ∈ runSendPairs u now cs cnt →
      entryVal cnt.lastMessageIdPerChat x < idv := by
  intro cs
  induction cs with
  | nil =>
    intro cnt x idv h
    simp [runSendPairs] at h
  | cons chat rest ih =>
    intro cnt x idv h
    rw [runSendPairs_cons u hl now] at h
    rcases List.mem_cons.mp h with heq | hmem
    · have hx : x = chat.id := congrArg Prod.fst heq
      have hid : idv = entryVal cnt.lastMessageIdPerChat chat.id + 1 :=
        congrArg Prod.snd heq
      rw [hx, hid]
      exact Nat.lt_succ_self _
    · have hlt := ih _ x idv hmem
      have hle := entryVal_assocSet_le cnt.lastMessageIdPerChat chat.id x
      exact lt_of_le_of_lt hle hlt

theorem idsForChat_cons (x a : Int) (b : Nat) (l : List (Int × Nat)) :
    idsForChat x ((a, b) :: l) =
      if a = x then b :: idsForChat x l else idsForChat x l := by
  by_cases h : a = x <;> simp [idsForChat, h]

theorem mem_idsForChat (x : Int) (l : List (Int × Nat)) (b : Nat) :
    b ∈ idsForChat x l ↔ (x, b) ∈ l := by
  induction l with
  | nil => simp [idsForChat]
  | cons hd tl ih =>
    obtain ⟨a, v⟩ := hd
    rw [idsForChat_cons]
    by_cases h : a = x
    · subst h
      simp [ih]
    · simp only [if_neg h, ih, List.mem_cons]
      constructor
      · exact Or.inr
      · rintro (heq | hmem)
        · exact absurd (congrArg Prod.fst heq).symm h
        · exact hmem

theorem runSendPairs_pairwise (u : UserS) (hl : u.linked = true)
    (now : Nat) :
    ∀ (cs : List ChatS) (cnt : Counters) (x : Int),
      List.Pairwise (· < ·) (idsForChat x (runSendPairs u now cs cnt)) := by
  intro cs
  induction cs with
  | nil =>
    intro cnt x
    simp [runSendPairs, idsForChat]
  | cons chat rest ih =>
    intro cnt x
    rw [runSendPairs_cons u hl now, idsForChat_cons]
    by_cases h : chat.id = x
    · rw [if_pos h]
      refine List.Pairwise.cons ?_ (ih _ x)
      intro b hb
      have hmem := (mem_idsForChat x _ b).mp hb
      have hgt := runSendPairs_mem_gt u hl now rest _ x b hmem
      have hself : entryVal (assocSet cnt.lastMessageIdPerChat chat.id
          (entryVal cnt.lastMessageIdPerChat chat.id + 1)) x =
          entryVal cnt.lastMessageIdPerChat chat.id + 1 := by
        rw [← h]
        exact entryVal_assocSet_self _ _ _
      rw [hself] at hgt
      have : entryVal cnt.lastMessageIdPerChat chat.id =
          entryVal cnt.lastMessageIdPerChat x := by rw [h]
      omega
    · rw [if_neg h]
      exact ih _ x

/-- C3 — Message ids assigned by `sendMessage` strictly increase per
chat, and chats are independent: from a fresh process, sending to chat
A, then chat B, then chat A again assigns message ids 1, 1, 2. -/
theorem sendMessage_ids_per_chat (u : UserS) (hl : u.linked = true)
    (now : Nat) (A B : ChatS) (hAB : A.id ≠ B.id) :
    (runSendPairs u now [A, B, A] {}).map (fun p => p.2) = [1, 1, 2] ∧
    ∀ (cs : List ChatS) (cnt : Counters) (chatId : Int),
      List.Pairwise (· < ·)
        (idsForChat chatId (runSendPairs u now cs cnt)) := by
  constructor
  · rw [runSendPairs_cons u hl, runSendPairs_cons u hl,
      runSendPairs_cons u hl]
    simp [runSendPairs, entryVal, assocLookup, assocSet, hAB]
  · intro cs cnt chatId
    exact runSendPairs_pairwise u hl now cs cnt chatId

/-- Witness for C3: the concrete user 1 sending to group chats 10, 11,
10 from a fresh process gets message ids 1, 1, 2. -/
theorem sendMessage_ids_per_chat_witness :
    (runSendPairs sampleLinkedUser 0 [chatA, chatB, chatA] {}).map
        (fun p => p.2) = [1, 1, 2] ∧
    ∀ (cs : List ChatS) (cnt : Counters) (chatId : Int),
      List.Pairwise (· < ·)
        (idsForChat chatId (runSendPairs sampleLinkedUser 0 cs cnt)) :=
  sendMessage_ids_per_chat sampleLinkedUser rfl 0 chatA chatB (by decide)

/-! ## Join / leave (claim C4) -/

/-- C4 — `join(chat)` then `leave(chat)` leaves the chat's member set
without the user; each call appends exactly one service message
(new-members list for join, left-member entry for leave) to the chat's
history; and within each call the membership mutation and the
`chat_member` emission (the membership phase) precede the service
message's append and emission (the service phase), as witnessed by the
phase decomposition and the order of the emitted updates. -/
theorem join_then_leave (u : UserS) (hl : u.linked = true) (chat : ChatS)
    (now now' : Nat) (cnt : Counters) :
    join u chat now cnt =
      joinServicePhase u now (joinMembershipPhase u chat now cnt) ∧
    u.id ∈ (joinMembershipPhase u chat now cnt).chat.members ∧
    (joinMembershipPhase u chat now cnt).chat.messages = chat.messages ∧
    (joinMembershipPhase u chat now cnt).emitted =
      [(cnt.lastUpdateId, Upd.chatMember chat.id u.id now "left" "member")] ∧
    (∃ m : Msg,
      (join u chat now cnt).chat.messages = chat.messages ++ [m] ∧
      m.new_chat_members = [u.id] ∧
      m.left_chat_member = none ∧
      (join u chat now cnt).emitted =
        [(cnt.lastUpdateId, Upd.chatMember chat.id u.id now "left" "member"),
         (cnt.lastUpdateId + 1, Upd.message m)]) ∧
    leave u (join u chat now cnt).chat now' (join u chat now cnt).counters =
      leaveServicePhase u now'
        (leaveMembershipPhase u (join u chat now cnt).chat now'
          (join u chat now cnt).counters) ∧
    u.id ∉ (leaveMembershipPhase u (join u chat now cnt).chat now'
      (join u chat now cnt).counters).chat.members ∧
    (leaveMembershipPhase u (join u chat now cnt).chat now'
      (join u chat now cnt).counters).chat.messages =
      (join u chat now cnt).chat.messages ∧
    (∃ m' : Msg,
      (leave u (join u chat now cnt).chat now'
          (join u chat now cnt).counters).chat.messages =
        (join u chat now cnt).chat.messages ++ [m'] ∧
      m'.left_chat_member = some u.id ∧
      m'.new_chat_members = [] ∧
      (leave u (join u chat now cnt).chat now'
          (join u chat now cnt).counters).emitted =
        [((join u chat now cnt).counters.lastUpdateId,
          Upd.chatMember chat.id u.id now' "member" "left"),
         ((join u chat now cnt).counters.lastUpdateId + 1,
          Upd.message m')]) ∧
    u.id ∉ (leave u (join u chat now cnt).chat now'
      (join u chat now cnt).counters).chat.members := by
  refine ⟨by simp [join, hl], ?_, rfl, rfl, ?_, by simp [leave, hl], ?_, rfl,
    ?_, ?_⟩
  · by_cases h : u.id ∈ chat.members <;>
      simp [joinMembershipPhase, memberAdd, h]
  · refine ⟨{ message_id := entryVal cnt.lastMessageIdPerChat chat.id + 1
              date := now
              chat_id := some chat.id
              from_id := some u.id
              new_chat_members := [u.id] }, ?_, rfl, rfl, ?_⟩
    · simp [join, hl, joinMembershipPhase, joinServicePhase, emitUpdate,
        entryVal]
    · simp [join, hl, joinMembershipPhase, joinServicePhase, emitUpdate,
        entryVal]
  · simp [leaveMembershipPhase, memberDelete, List.mem_filter]
  · refine ⟨{ message_id := entryVal
                (join u chat now cnt).counters.lastMessageIdPerChat
                (join u chat now cnt).chat.id + 1
              date := now'
              chat_id := some (join u chat now cnt).chat.id
              from_id := some u.id
              left_chat_member := some u.id }, ?_, rfl, rfl, ?_⟩
    · simp [leave, hl, leaveMembershipPhase, leaveServicePhase, emitUpdate,
        entryVal]
    · simp [leave, hl, leaveMembershipPhase, leaveServicePhase, emitUpdate,
        entryVal, join, joinMembershipPhase, joinServicePhase]
  · simp [leave, hl, leaveMembershipPhase, leaveServicePhase, emitUpdate,
      memberDelete, List.mem_filter]

/-- Witness for C4: user 1 joining then leaving group chat 10 from a
fresh state. -/
theorem join_then_leave_witness :
    join sampleLinkedUser chatA 0 {} =
      joinServicePhase sampleLinkedUser 0
        (joinMembershipPhase sampleLinkedUser chatA 0 {}) ∧
    sampleLinkedUser.id ∈
      (joinMembershipPhase sampleLinkedUser chatA 0 {}).chat.members ∧
    (joinMembershipPhase sampleLinkedUser chatA 0 {}).chat.messages =
      chatA.messages ∧
    (joinMembershipPhase sampleLinkedUser chatA 0 {}).emitted =
      [(({} : Counters).lastUpdateId,
        Upd.chatMember chatA.id sampleLinkedUser.id 0 "left" "member")] ∧
    (∃ m : Msg,
      (join sampleLinkedUser chatA 0 {}).chat.messages =
        chatA.messages ++ [m] ∧
      m.new_chat_members = [sampleLinkedUser.id] ∧
      m.left_chat_member = none ∧
      (join sampleLinkedUser chatA 0 {}).emitted =
        [(({} : Counters).lastUpdateId,
          Upd.chatMember chatA.id sampleLinkedUser.id 0 "left" "member"),
         (({} : Counters).lastUpdateId + 1, Upd.message m)]) ∧
    leave sampleLinkedUser (join sampleLinkedUser chatA 0 {}).chat 1
        (join sampleLinkedUser chatA 0 {}).counters =
      leaveServicePhase sampleLinkedUser 1
        (leaveMembershipPhase sampleLinkedUser
          (join sampleLinkedUser chatA 0 {}).chat 1
          (join sampleLinkedUser chatA 0 {}).counters) ∧
    sampleLinkedUser.id ∉
      (leaveMembershipPhase sampleLinkedUser
        (join sampleLinkedUser chatA 0 {}).chat 1
        (join sampleLinkedUser chatA 0 {}).counters).chat.members ∧
    (leaveMembershipPhase sampleLinkedUser
      (join sampleLinkedUser chatA 0 {}).chat 1
      (join sampleLinkedUser chatA 0 {}).counters).chat.messages =
      (join sampleLinkedUser chatA 0 {}).chat.messages ∧
    (∃ m' : Msg,
      (leave sampleLinkedUser (join sampleLinkedUser chatA 0 {}).chat 1
          (join sampleLinkedUser chatA 0 {}).counters).chat.messages =
        (join sampleLinkedUser chatA 0 {}).chat.messages ++ [m'] ∧
      m'.left_chat_member = some sampleLinkedUser.id ∧
      m'.new_chat_members = [] ∧
      (leave sampleLinkedUser (join sampleLinkedUser chatA 0 {}).chat 1
          (join sampleLinkedUser chatA 0 {}).counters).emitted =
        [((join sampleLinkedUser chatA 0 {}).counters.lastUpdateId,
          Upd.chatMember chatA.id sampleLinkedUser.id 1 "member" "left"),
         ((join sampleLinkedUser chatA 0 {}).counters.lastUpdateId + 1,
          Upd.message m')]) ∧
    sampleLinkedUser.id ∉
      (leave sampleLinkedUser (join sampleLinkedUser chatA 0 {}).chat 1
        (join sampleLinkedUser chatA 0 {}).counters).chat.members :=
  join_then_leave sampleLinkedUser rfl chatA 0 1 {}

/-! ## Reaction ledger (claims C5, C6) -/

theorem emojisOf_map_emoji (E : List String) :
    emojisOf (E.map RType.emoji) = E := by
  induction E with
  | nil => rfl
  | cons e rest ih => simp [emojisOf] at ih ⊢; exact ih

theorem react_linked_message (u : UserS) (hl : u.linked = true)
    (E : List String) (m : Msg) (now : Nat) (cnt : Counters) :
    (react u E (some m) now cnt).message =
      some (if E = [] then { m with reactions := assocDelete m.reactions u.id }
            else { m with reactions := assocSet m.reactions u.id E }) := by
  simp [react, hl, emitUpdate, emojisOf_map_emoji]

theorem react_linked_emitted (u : UserS) (hl : u.linked = true)
    (E : List String) (m : Msg) (now : Nat) (cnt : Counters) :
    (react u E (some m) now cnt).emitted =
      [(cnt.lastUpdateId,
        Upd.messageReaction (m.chat_id.getD u.asChat.id) m.message_id u.id
          now (((assocLookup m.reactions u.id).getD []).map RType.emoji)
          (E.map RType.emoji))] := by
  simp [react, hl, emitUpdate]

/-- C5 — Reacting with emoji set E and then immediately reacting with E
again leaves the message's ledger entry for the user equal to E (the
entry is `some E` for nonempty E and removed for empty E), and the
second emitted reaction update's `old_reaction` equals E. -/
theorem react_twice_idempotent (u : UserS) (hl : u.linked = true)
    (m : Msg) (E : List String) (now now' : Nat) (cnt : Counters) :
    ∃ m1 m2 : Msg,
      (react u E (some m) now cnt).message = some m1 ∧
      (react u E (some m1) now'
        (react u E (some m) now cnt).counters).message = some m2 ∧
      (assocLookup m2.reactions u.id).getD [] = E ∧
      (E ≠ [] → assocLookup m2.reactions u.id = some E) ∧
      (E = [] → assocLookup m2.reactions u.id = none) ∧
      (react u E (some m1) now'
          (react u E (some m) now cnt).counters).emitted =
        [((react u E (some m) now cnt).counters.lastUpdateId,
          Upd.messageReaction (m1.chat_id.getD u.asChat.id) m1.message_id
            u.id now' (E.map RType.emoji) (E.map RType.emoji))] := by
  by_cases hE : E = []
  · subst hE
    refine ⟨{ m with reactions := assocDelete m.reactions u.id },
      { m with reactions :=
          assocDelete (assocDelete m.reactions u.id) u.id }, ?_, ?_, ?_,
      fun h => absurd rfl h, fun _ => assocLookup_assocDelete_self _ _, ?_⟩
    · rw [react_linked_message u hl]
      simp
    · rw [react_linked_message u hl]
      simp
    · simp [assocLookup_assocDelete_self]
    · rw [react_linked_emitted u hl]
      simp [assocLookup_assocDelete_self]
  · refine ⟨{ m with reactions := assocSet m.reactions u.id E },
      { m with reactions :=
          assocSet (assocSet m.reactions u.id E) u.id E }, ?_, ?_, ?_,
      fun _ => assocLookup_assocSet_self _ _ _,
      fun h => absurd h hE, ?_⟩
    · rw [react_linked_message u hl]
      simp [hE]
    · rw [react_linked_message u hl]
      simp [hE]
    · simp [assocLookup_assocSet_self]
    · rw [react_linked_emitted u hl]
      simp [assocLookup_assocSet_self]

/-- Witness for C5: user 1 reacting twice with `["👍"]` on the sample
message. -/
theorem react_twice_idempotent_witness :
    ∃ m1 m2 : Msg,
      (react sampleLinkedUser ["👍"] (some sampleMsg) 0 {}).message =
        some m1 ∧
      (react sampleLinkedUser ["👍"] (some m1) 1
        (react sampleLinkedUser ["👍"] (some sampleMsg) 0 {}).counters).message =
        some m2 ∧
      (assocLookup m2.reactions sampleLinkedUser.id).getD [] = ["👍"] ∧
      (["👍"] ≠ ([] : List String) →
        assocLookup m2.reactions sampleLinkedUser.id = some ["👍"]) ∧
      (["👍"] = ([] : List String) →
        assocLookup m2.reactions sampleLinkedUser.id = none) ∧
      (react sampleLinkedUser ["👍"] (some m1) 1
          (react sampleLinkedUser ["👍"] (some sampleMsg) 0 {}).counters).emitted =
        [((react sampleLinkedUser ["👍"] (some sampleMsg) 0 {}).counters.lastUpdateId,
          Upd.messageReaction (m1.chat_id.getD sampleLinkedUser.asChat.id)
            m1.message_id sampleLinkedUser.id 1
            (["👍"].map RType.emoji) (["👍"].map RType.emoji))] :=
  react_twice_idempotent sampleLinkedUser rfl sampleMsg ["👍"] 0 1 {}

/-- C6 — Reacting with the empty emoji set removes the user's entry
from the message's reaction ledger entirely. -/
theorem react_empty_removes_entry (u : UserS) (hl : u.linked = true)
    (m : Msg) (now : Nat) (cnt : Counters) :
    ∃ m1 : Msg,
      (react u [] (some m) now cnt).message = some m1 ∧
      assocLookup m1.reactions u.id = none :=
  ⟨{ m with reactions := assocDelete m.reactions u.id },
   by rw [react_linked_message u hl]; simp,
   assocLookup_assocDelete_self _ _⟩

/-- Witness for C6: user 1 clearing reactions on a message whose ledger
already holds entries for users 1 and 3. -/
theorem react_empty_removes_entry_witness :
    ∃ m1 : Msg,
      (react sampleLinkedUser []
        (some { sampleMsg with reactions := [(1, ["👍"]), (3, ["❤"])] })
        0 {}).message = some m1 ∧
      assocLookup m1.reactions sampleLinkedUser.id = none :=
  react_empty_removes_entry sampleLinkedUser rfl
    { sampleMsg with reactions := [(1, ["👍"]), (3, ["❤"])] } 0 {}

/-! ## Unlinked-user guard (claim C7) -/

/-- C7 — Every actor action invoked on a user not linked to an
environment fails with the "not attached" error and performs no state
mutation: the chat, message, counters and logs are returned untouched
and no update is emitted. -/
theorem unlinked_actions_fail (u : UserS) (hnl : u.linked = false)
    (chat : ChatS) (t : String) (msgQ : Option Msg) (E : List String)
    (d q rid : String) (imid : Option String) (iarg : InlineArg)
    (now : Nat) (cnt : Counters) :
    sendMessage u (ChatOrText.chatArg chat t) now cnt =
      { result := Except.error notAttachedMsg, chat := chat,
        counters := cnt, emitted := [] } ∧
    sendMessage u (ChatOrText.textArg t) now cnt =
      { result := Except.error notAttachedMsg, chat := u.asChat,
        counters := cnt, emitted := [] } ∧
    join u chat now cnt =
      { result := Except.error notAttachedMsg, chat := chat,
        counters := cnt, emitted := [] } ∧
    leave u chat now cnt =
      { result := Except.error notAttachedMsg, chat := chat,
        counters := cnt, emitted := [] } ∧
    click u d msgQ now cnt =
      { result := Except.error notAttachedMsg, counters := cnt,
        emitted := [] } ∧
    react u E msgQ now cnt =
      { result := Except.error notAttachedMsg, message := msgQ,
        counters := cnt, emitted := [] } ∧
    sendInlineQuery u q iarg cnt =
      { result := Except.error notAttachedMsg, counters := cnt,
        emitted := [] } ∧
    chooseInlineResult u rid q imid cnt =
      { result := Except.error notAttachedMsg, counters := cnt,
        emitted := [] } := by
  refine ⟨?_, ?_, ?_, ?_, ?_, ?_, ?_, ?_⟩ <;>
    simp [sendMessage, join, leave, click, react, sendInlineQuery,
      chooseInlineResult, hnl]

/-- Witness for C7: the concrete unlinked user 2 fails every action
without touching any state. -/
theorem unlinked_actions_fail_witness :
    sendMessage sampleUnlinkedUser (ChatOrText.chatArg chatA "hi") 0 {} =
      { result := Except.error notAttachedMsg, chat := chatA,
        counters := {}, emitted := [] } ∧
    sendMessage sampleUnlinkedUser (ChatOrText.textArg "hi") 0 {} =
      { result := Except.error notAttachedMsg,
        chat := sampleUnlinkedUser.asChat, counters := {}, emitted := [] } ∧
    join sampleUnlinkedUser chatA 0 {} =
      { result := Except.error notAttachedMsg, chat := chatA,
        counters := {}, emitted := [] } ∧
    leave sampleUnlinkedUser chatA 0 {} =
      { result := Except.error notAttachedMsg, chat := chatA,
        counters := {}, emitted := [] } ∧
    click sampleUnlinkedUser "data" (some sampleMsg) 0 {} =
      { result := Except.error notAttachedMsg, counters := {},
        emitted := [] } ∧
    react sampleUnlinkedUser ["👍"] (some sampleMsg) 0 {} =
      { result := Except.error notAttachedMsg, message := some sampleMsg,
        counters := {}, emitted := [] } ∧
    sendInlineQuery sampleUnlinkedUser "q" InlineArg.noneArg {} =
      { result := Except.error notAttachedMsg, counters := {},
        emitted := [] } ∧
    chooseInlineResult sampleUnlinkedUser "r" "q" none {} =
      { result := Except.error notAttachedMsg, counters := {},
        emitted := [] } :=
  unlinked_actions_fail sampleUnlinkedUser rfl chatA "hi"
    (some sampleMsg) ["👍"] "data" "q" "r" none InlineArg.noneArg 0 {}

/-! ## Message constructor defaults (claim C8) -/

/-- Counterexample to C8 as stated: with the chat-7 sequence standing at
5, a `MessageObject` built with `chat` set to chat 7 and no
`message_id` defaults its id to 5 — the chat's stored last-used value —
while the next value of chat 7's message-id sequence (what `sendMessage`
would allocate) is 6. -/
theorem messageObject_default_not_next_id :
    (messageObjectNew { chat_id := some 7 } [(7, 5)] 100).message_id = 5 ∧
    nextSeqId [(7, 5)] 7 = 6 ∧
    (messageObjectNew { chat_id := some 7 } [(7, 5)] 100).message_id ≠
      nextSeqId [(7, 5)] 7 := by
  refine ⟨rfl, rfl, ?_⟩
  decide

/-- C8 (amended) — A freshly constructed Message whose partial payload
sets neither `message_id` nor `date` defaults its message id to the
chat's stored last-used sequence value (`0` when the chat has no entry,
reading chat id 0's sequence when no chat is given) and its date to the
current timestamp. -/
theorem messageObject_defaults (p : PartialMsg)
    (map : List (Int × Nat)) (now : Nat)
    (hid : p.message_id = none) (hdate : p.date = none) :
    (messageObjectNew p map now).message_id =
      (assocLookup map (p.chat_id.getD 0)).getD 0 ∧
    (messageObjectNew p map now).date = now := by
  simp [messageObjectNew, hid, hdate]

/-- Witness for C8 (amended) at the concrete counterexample input. -/
theorem messageObject_defaults_witness :
    (messageObjectNew { chat_id := some 7 } [(7, 5)] 100).message_id =
      (assocLookup [(7, 5)] ((some (7 : Int)).getD 0)).getD 0 ∧
    (messageObjectNew { chat_id := some 7 } [(7, 5)] 100).date = 100 :=
  messageObject_defaults { chat_id := some 7 } [(7, 5)] 100 rfl rfl

/-! ## createUser id allocation (claim C9) -/

/-- Counterexample to C9 as stated: two `createUser` calls whose partial
payloads both carry `id: 42` return users with the same id, because the
spread `{...defaults, ...payload}` lets the payload override the
allocated id. -/
theorem createUser_duplicate_ids :
    createdIds [{ id := some 42 }, { id := some 42 }] {} = [42, 42] ∧
    ¬ List.Pairwise (· ≠ ·)
        (createdIds [{ id := some 42 }, { id := some 42 }] {}) := by
  constructor
  · rfl
  · intro h
    rcases List.pairwise_cons.mp h with ⟨h42, _⟩
    exact h42 42 (List.mem_singleton.mpr rfl) rfl

theorem createdIds_cons (p : PartialUser) (ps : List PartialUser)
    (cnt : Counters) :
    createdIds (p :: ps) cnt =
      p.id.getD (cnt.lastUserId + 1) ::
        createdIds ps { cnt with
          lastUserId := cnt.lastUserId + 1
          lastChatId := cnt.lastChatId + 1 } := by
  simp [createdIds, createUser, userObjectNew]

theorem createdIds_mem_gt :
    ∀ (ps : List PartialUser) (cnt : Counters),
      (∀ p ∈ ps, p.id = none) →
      ∀ b ∈ createdIds ps cnt, cnt.lastUserId < b := by
  intro ps
  induction ps with
  | nil =>
    intro cnt _ b hb
    simp [createdIds] at hb
  | cons p rest ih =>
    intro cnt hids b hb
    rw [createdIds_cons] at hb
    have hpid : p.id = none := hids p (List.mem_cons_self p rest)
    rw [hpid] at hb
    rcases List.mem_cons.mp hb with heq | hmem
    · rw [heq]
      exact Nat.lt_succ_self _
    · have hrest : ∀ q ∈ rest, q.id = none := fun q hq =>
        hids q (List.mem_cons_of_mem p hq)
      have := ih _ hrest b hmem
      exact Nat.lt_of_succ_lt this

theorem createdIds_pairwise_lt :
    ∀ (ps : List PartialUser) (cnt : Counters),
      (∀ p ∈ ps, p.id = none) →
      List.Pairwise (· < ·) (createdIds ps cnt) := by
  intro ps
  induction ps with
  | nil =>
    intro cnt _
    simp [createdIds]
  | cons p rest ih =>
    intro cnt h
    rw [createdIds_cons, h p (List.mem_cons_self p rest)]
    simp only [Option.getD_none]
    have hrest : ∀ q ∈ rest, q.id = none := fun q hq =>
      h q (List.mem_cons_of_mem p hq)
    refine List.Pairwise.cons ?_ (ih _ hrest)
    intro b hb
    simpa using createdIds_mem_gt rest _ hrest b hb

/-- C9 (amended) — For every sequence of `createUser` calls whose
partial payloads do not specify an id, the returned user ids are
strictly increasing, hence pairwise distinct. (The claim as stated
fails when a payload supplies an explicit id, which overrides the
allocated one.) -/
theorem createUser_fresh_ids_distinct (ps : List PartialUser)
    (cnt : Counters) (h : ∀ p ∈ ps, p.id = none) :
    List.Pairwise (· < ·) (createdIds ps cnt) ∧
    (createdIds ps cnt).Nodup := by
  have hpw := createdIds_pairwise_lt ps cnt h
  exact ⟨hpw, List.Pairwise.imp Nat.ne_of_lt hpw⟩

/-- Witness for C9 (amended): three payloads without ids get the
distinct ids 1, 2, 3. -/
theorem createUser_fresh_ids_distinct_witness :
    List.Pairwise (· < ·) (createdIds [{}, {}, {}] {}) ∧
    (createdIds [{}, {}, {}] ({} : Counters)).Nodup :=
  createUser_fresh_ids_distinct [{}, {}, {}] {}
    (by
      intro p hp
      rcases List.mem_cons.mp hp with rfl | hp
      · rfl
      rcases List.mem_cons.mp hp with rfl | hp
      · rfl
      rcases List.mem_cons.mp hp with rfl | hp
      · rfl
      exact absurd hp (List.not_mem_nil _))

end GramioTest
